import Mathlib

/-!
Verification of the bank-account reducer in `src/src/App.js`.

The reducer manipulates JavaScript numbers (which may be `NaN`) and the
staged input fields, which are JavaScript strings fed through `Number(...)`
and the `||` operator.  We embed exactly the fragment of JavaScript
semantics the reducer exercises:

* `JsNum` is a JavaScript number: either `NaN` or a rational value
  (all numbers occurring in the program are exact decimals, so `ℚ`
  is a faithful carrier; no rounding happens at these magnitudes).
* `JsStr` abstracts a string by the two attributes the reducer observes:
  whether it is empty (the only falsy string) and what `Number(...)`
  converts it to (`Number "" = 0`, a numeric literal converts to its
  value, anything else converts to `NaN`).
-/

namespace BankApp

/-- A JavaScript number: `NaN` or an exact value. -/
inductive JsNum where
  | nan : JsNum
  | num : ℚ → JsNum
deriving DecidableEq, Repr

/-- JavaScript `+` on numbers: `NaN` is absorbing. -/
def jadd : JsNum → JsNum → JsNum
  | .num a, .num b => .num (a + b)
  | _, _ => .nan

/-- JavaScript `-` on numbers: `NaN` is absorbing. -/
def jsub : JsNum → JsNum → JsNum
  | .num a, .num b => .num (a - b)
  | _, _ => .nan

/-- JavaScript `>` on numbers: any comparison involving `NaN` is `false`. -/
def jgt : JsNum → JsNum → Bool
  | .num a, .num b => decide (b < a)
  | _, _ => false

/-- JavaScript `>=` on numbers: any comparison involving `NaN` is `false`. -/
def jge : JsNum → JsNum → Bool
  | .num a, .num b => decide (b ≤ a)
  | _, _ => false

/-- JavaScript `<=` on numbers: any comparison involving `NaN` is `false`. -/
def jle : JsNum → JsNum → Bool
  | .num a, .num b => decide (a ≤ b)
  | _, _ => false

/-- JavaScript `===` on numbers: `NaN === x` is always `false`. -/
def jeq : JsNum → JsNum → Bool
  | .num a, .num b => decide (a = b)
  | _, _ => false

/-- JavaScript truthiness of a number: `NaN` and `0` are falsy. -/
def jsTruthy : JsNum → Bool
  | .nan => false
  | .num a => decide (a ≠ 0)

/-- JavaScript `n || 0` on a number `n` (used as `Number(x) || 0`). -/
def jsOrZero (n : JsNum) : JsNum :=
  if jsTruthy n then n else .num 0

/-- A JavaScript string, abstracted by what the reducer observes of it:
`empty` is `""` (the only falsy string, `Number "" = 0`); `numStr q` is a
non-empty string that `Number` converts to the value `q`; `nanStr` is a
non-empty string that `Number` converts to `NaN`. -/
inductive JsStr where
  | empty : JsStr
  | numStr : ℚ → JsStr
  | nanStr : JsStr
deriving DecidableEq, Repr

/-- `Number(s)` for a string `s`. -/
def jsNumber : JsStr → JsNum
  | .empty => .num 0
  | .numStr q => .num q
  | .nanStr => .nan

/-- `Number(s || 0)` for a string `s`: `""` is the only falsy string, and
`Number "" = 0 = Number 0`, so this coincides with `Number(s)`; we keep
the composite definition to mirror the source expression. -/
def jsNumberOrZero (s : JsStr) : JsNum :=
  match s with
  | .empty => .num 0
  | s => jsNumber s

/-- The reducer state, mirroring the shape of `initialState` in `App.js`:
the money fields are JavaScript numbers and the four staged input
fields are JavaScript strings. -/
structure AccountState where
  balance : JsNum
  loan : JsNum
  isActive : Bool
  lastBalance : JsNum
  depositAmount : JsStr
  withdrawAmount : JsStr
  requestLoanAmount : JsStr
  payLoanAmount : JsStr
deriving DecidableEq, Repr

/-- `initialState` from `App.js`. -/
def initialState : AccountState :=
  { balance := .num 0
    loan := .num 0
    isActive := false
    lastBalance := .num 0
    depositAmount := .empty
    withdrawAmount := .empty
    requestLoanAmount := .empty
    payLoanAmount := .empty }

/-- The actions dispatched to the reducer (the `action.type` tags of
`App.js`; the four `set...Amount` actions carry their `action.amount`
string payload). -/
inductive Action where
  | openAccount : Action
  | setDepositAmount : JsStr → Action
  | setWithdrawAmount : JsStr → Action
  | setRequestLoanAmount : JsStr → Action
  | setPayLoanAmount : JsStr → Action
  | deposit : Action
  | withdraw : Action
  | requestLoan : Action
  | payLoan : Action
  | closeAccount : Action
deriving DecidableEq, Repr

/-- Whether `action.type` is the `openAccount` tag. -/
def Action.typeIsOpenAccount : Action → Bool
  | .openAccount => true
  | _ => false

/-- The reducer of `App.js`, line by line.  The initial `if` is the guard
clause; `Number(state.balance)` and `Number(state.loan)` are identities in
our model since those fields are already numbers. -/
def reducer (state : AccountState) (action : Action) : AccountState :=
  if !state.isActive && !action.typeIsOpenAccount then
    state
  else
    match action with
    | .openAccount =>
        { state with
          isActive := true
          balance := .num 500
          lastBalance := .num 0 }
    | .setDepositAmount amount =>
        { state with depositAmount := amount }
    | .setWithdrawAmount amount =>
        { state with withdrawAmount := amount }
    | .setRequestLoanAmount amount =>
        { state with requestLoanAmount := amount }
    | .setPayLoanAmount amount =>
        { state with payLoanAmount := amount }
    | .deposit =>
        { state with
          balance := jadd state.balance (jsNumberOrZero state.depositAmount)
          depositAmount := .empty }
    | .withdraw =>
        { state with
          balance := jsub state.balance (jsNumberOrZero state.withdrawAmount)
          withdrawAmount := .empty }
    | .requestLoan =>
        if jeq state.loan (.num 0) then
          { state with
            loan := jsOrZero (jsNumber state.requestLoanAmount)
            balance := jadd state.balance (jsNumberOrZero state.requestLoanAmount)
            requestLoanAmount := .empty }
        else
          state
    | .payLoan =>
        let paymentAmount := jsNumberOrZero state.payLoanAmount
        let remainingLoan := state.loan
        if jgt remainingLoan (.num 0) && jgt paymentAmount (.num 0) &&
            jle paymentAmount remainingLoan then
          { state with
            balance := jsub state.balance paymentAmount
            loan := jsub remainingLoan paymentAmount
            payLoanAmount := .empty }
        else
          state
    | .closeAccount =>
        let currentBalance := state.balance
        let currentLoan := state.loan
        if jeq currentLoan (.num 0) then
          { state with
            isActive := false
            lastBalance := currentBalance
            balance := .num 0
            loan := .num 0 }
        else if jge currentBalance currentLoan then
          { state with
            isActive := false
            lastBalance := jsub currentBalance currentLoan
            balance := .num 0
            loan := .num 0 }
        else
          state

/-- Dispatching a sequence of actions starting from `initialState`
(the `useReducer` loop). -/
def runActions (acts : List Action) : AccountState :=
  acts.foldl reducer initialState

/-! ### Basic lemmas about the JavaScript value model and the guard -/

theorem jeq_num_zero_iff (n : JsNum) : jeq n (.num 0) = true ↔ n = .num 0 := by
  cases n <;> simp [jeq]

theorem jsOrZero_num (a : ℚ) : jsOrZero (.num a) = .num a := by
  by_cases h : a = 0 <;> simp [jsOrZero, jsTruthy, h]

theorem jadd_num_zero (n : JsNum) : jadd n (.num 0) = n := by
  cases n <;> simp [jadd]

theorem jsub_num_zero (n : JsNum) : jsub n (.num 0) = n := by
  cases n <;> simp [jsub]

theorem jgt_num_zero_iff (n : JsNum) :
    jgt n (.num 0) = true ↔ ∃ q, n = JsNum.num q ∧ 0 < q := by
  cases n <;> simp [jgt]

theorem typeIsOpenAccount_eq_false (a : Action) (ha : a ≠ Action.openAccount) :
    a.typeIsOpenAccount = false := by
  cases a <;> simp [Action.typeIsOpenAccount] at ha ⊢

/-- The guard clause: an inactive state absorbs every action whose type is
not `openAccount`. -/
theorem reducer_guard (s : AccountState) (a : Action)
    (h1 : s.isActive = false) (h2 : a.typeIsOpenAccount = false) :
    reducer s a = s := by
  simp [reducer, h1, h2]

/-! ### The claims -/

/-- C1: for every state `s` with `s.isActive = false` and every action `a`
whose kind is not `openAccount`, the reducer returns `s` unchanged (the
guard clause precedes all other logic). -/
theorem inactive_absorbs_non_open (s : AccountState) (a : Action)
    (h1 : s.isActive = false) (h2 : a ≠ Action.openAccount) :
    reducer s a = s :=
  reducer_guard s a h1 (typeIsOpenAccount_eq_false a h2)

theorem inactive_absorbs_non_open_witness :
    initialState.isActive = false ∧ Action.deposit ≠ Action.openAccount ∧
      reducer initialState Action.deposit = initialState :=
  ⟨rfl, by decide,
    inactive_absorbs_non_open initialState Action.deposit rfl (by decide)⟩

/-- C2: for every prior state `s` (active or not, any balance and loan),
`reducer s openAccount` has `isActive = true`, `balance = 500` and
`lastBalance = 0`. -/
theorem openAccount_result (s : AccountState) :
    (reducer s .openAccount).isActive = true ∧
    (reducer s .openAccount).balance = JsNum.num 500 ∧
    (reducer s .openAccount).lastBalance = JsNum.num 0 := by
  simp [reducer, Action.typeIsOpenAccount]

/-- C9: `closeAccount` is idempotent on every state. -/
theorem closeAccount_idempotent (s : AccountState) :
    reducer (reducer s .closeAccount) .closeAccount = reducer s .closeAccount := by
  by_cases hA : s.isActive
  · have hguard : Action.typeIsOpenAccount .closeAccount = false := rfl
    by_cases h0 : jeq s.loan (.num 0) = true
    · have : reducer s .closeAccount =
          { s with
            isActive := false
            lastBalance := s.balance
            balance := .num 0
            loan := .num 0 } := by
        simp [reducer, hA, h0]
      rw [this, reducer_guard _ _ rfl hguard]
    · by_cases hge : jge s.balance s.loan = true
      · have : reducer s .closeAccount =
            { s with
              isActive := false
              lastBalance := jsub s.balance s.loan
              balance := .num 0
              loan := .num 0 } := by
          simp [reducer, hA, h0, hge]
        rw [this, reducer_guard _ _ rfl hguard]
      · have : reducer s .closeAccount = s := by
          simp [reducer, hA, h0, hge]
        rw [this, this]
  · have h : s.isActive = false := by simpa using hA
    rw [reducer_guard s .closeAccount h rfl, reducer_guard s .closeAccount h rfl]

/-- C10: `openAccount` leaves the `loan` field unchanged — it reassigns
only `isActive`, `balance` and `lastBalance`. -/
theorem openAccount_preserves_loan (s : AccountState) :
    (reducer s .openAccount).loan = s.loan ∧
    reducer s .openAccount =
      { s with isActive := true, balance := .num 500, lastBalance := .num 0 } := by
  constructor <;> simp [reducer, Action.typeIsOpenAccount]

/-- C3: on an active state whose staged request text holds the numeric
value `a`, `requestLoan` registers the loan and adds it to the balance
when no loan exists, and is a no-op when a loan exists. -/
theorem requestLoan_spec (s : AccountState) (a : ℚ)
    (hA : s.isActive = true) (hstage : s.requestLoanAmount = .numStr a) :
    (s.loan = JsNum.num 0 →
      (reducer s .requestLoan).loan = JsNum.num a ∧
      (reducer s .requestLoan).balance = jadd s.balance (.num a)) ∧
    (s.loan ≠ JsNum.num 0 → reducer s .requestLoan = s) := by
  constructor
  · intro h0
    have hj : jeq s.loan (.num 0) = true := (jeq_num_zero_iff s.loan).mpr h0
    simp [reducer, hA, hj, hstage, jsNumber, jsNumberOrZero, jsOrZero_num]
  · intro h0
    have hj : jeq s.loan (.num 0) = false := by
      cases hcase : jeq s.loan (.num 0)
      · rfl
      · exact absurd ((jeq_num_zero_iff s.loan).mp hcase) h0
    simp [reducer, hA, hj]

def requestState : AccountState :=
  { initialState with
    isActive := true
    balance := .num 500
    requestLoanAmount := .numStr 5000 }

theorem requestLoan_spec_witness :
    (reducer requestState .requestLoan).loan = JsNum.num 5000 ∧
    (reducer requestState .requestLoan).balance =
      jadd requestState.balance (.num 5000) :=
  (requestLoan_spec requestState 5000 rfl rfl).1 rfl

/-- C5: on an active state with numeric balance `b` and loan `l`,
`closeAccount` closes with `lastBalance = b` when `l = 0`, auto-pays and
closes with `lastBalance = b - l` when `0 < l ≤ b`, and is a no-op when
`0 < l` and `b < l`. -/
theorem closeAccount_spec (s : AccountState) (l b : ℚ)
    (hA : s.isActive = true) (hl : s.loan = JsNum.num l)
    (hb : s.balance = JsNum.num b) :
    (l = 0 →
      (reducer s .closeAccount).isActive = false ∧
      (reducer s .closeAccount).lastBalance = JsNum.num b ∧
      (reducer s .closeAccount).balance = JsNum.num 0 ∧
      (reducer s .closeAccount).loan = JsNum.num 0) ∧
    (0 < l → l ≤ b →
      (reducer s .closeAccount).isActive = false ∧
      (reducer s .closeAccount).lastBalance = JsNum.num (b - l) ∧
      (reducer s .closeAccount).balance = JsNum.num 0 ∧
      (reducer s .closeAccount).loan = JsNum.num 0) ∧
    (0 < l → b < l → reducer s .closeAccount = s) := by
  refine ⟨?_, ?_, ?_⟩
  · intro h0
    simp [reducer, hA, hl, hb, jeq, h0]
  · intro hlpos hle
    simp [reducer, hA, hl, hb, jeq, jge, jsub, hle, ne_of_gt hlpos]
  · intro hlpos hblt
    simp [reducer, hA, hl, hb, jeq, jge, ne_of_gt hlpos, not_le.mpr hblt]

def closeState : AccountState :=
  { initialState with
    isActive := true
    balance := .num 650 }

theorem closeAccount_spec_witness :
    (reducer closeState .closeAccount).isActive = false ∧
    (reducer closeState .closeAccount).lastBalance = JsNum.num 650 ∧
    (reducer closeState .closeAccount).balance = JsNum.num 0 ∧
    (reducer closeState .closeAccount).loan = JsNum.num 0 :=
  (closeAccount_spec closeState 0 650 rfl rfl rfl).1 rfl

/-- C8 as amended: on an active state, empty staged text for deposit or
withdraw is treated as zero (the balance is unchanged), while non-empty
non-numeric staged text makes the balance `NaN` rather than leaving it
unchanged. -/
theorem text_amount_coercion (s : AccountState) (hA : s.isActive = true) :
    (s.depositAmount = JsStr.empty →
      (reducer s .deposit).balance = s.balance) ∧
    (s.withdrawAmount = JsStr.empty →
      (reducer s .withdraw).balance = s.balance) ∧
    (s.depositAmount = JsStr.nanStr →
      (reducer s .deposit).balance = JsNum.nan) ∧
    (s.withdrawAmount = JsStr.nanStr →
      (reducer s .withdraw).balance = JsNum.nan) := by
  refine ⟨?_, ?_, ?_, ?_⟩ <;> intro h <;>
    cases hb : s.balance <;>
      simp [reducer, hA, h, jsNumberOrZero, jsNumber, jadd, jsub, hb]

theorem text_amount_coercion_witness :
    (reducer { initialState with isActive := true } .deposit).balance =
      AccountState.balance { initialState with isActive := true } :=
  (text_amount_coercion { initialState with isActive := true } rfl).1 rfl

def nanDepositState : AccountState :=
  { initialState with
    isActive := true
    balance := .num 100
    depositAmount := .nanStr }

/-- C8, counterexample: non-numeric staged deposit text is not treated as
zero — depositing with `depositAmount` a non-numeric string turns a
balance of `100` into `NaN`, not `100`. -/
theorem deposit_nan_text_changes_balance :
    nanDepositState.isActive = true ∧
    nanDepositState.depositAmount = JsStr.nanStr ∧
    (reducer nanDepositState .deposit).balance = JsNum.nan ∧
    (reducer nanDepositState .deposit).balance ≠ nanDepositState.balance := by
  exact ⟨rfl, rfl, rfl, by decide⟩

def stagedPayState : AccountState :=
  { initialState with
    isActive := true
    balance := .num 500
    loan := .num 100
    payLoanAmount := .numStr 40 }

/-- C4, counterexample: `payLoan` is not a full payoff.  On an active
state with balance `500`, loan `100` and staged payment `40`, the reducer
subtracts only the staged `40`: the new loan is `60`, not `0`, and the
new balance is `460`, not `balance - loan = 400`. -/
theorem payLoan_not_full_payoff :
    stagedPayState.isActive = true ∧
    stagedPayState.loan = JsNum.num 100 ∧ (0:ℚ) < 100 ∧
    (reducer stagedPayState .payLoan).loan = JsNum.num (100 - 40) ∧
    JsNum.num ((100:ℚ) - 40) ≠ JsNum.num 0 ∧
    (reducer stagedPayState .payLoan).balance = JsNum.num (500 - 40) ∧
    JsNum.num ((500:ℚ) - 40) ≠
      jsub stagedPayState.balance stagedPayState.loan := by
  refine ⟨rfl, rfl, by decide, rfl, ?_, rfl, ?_⟩
  · simp only [ne_eq, JsNum.num.injEq]
    norm_num
  · show JsNum.num ((500:ℚ) - 40) ≠ JsNum.num ((500:ℚ) - 100)
    simp only [ne_eq, JsNum.num.injEq]
    norm_num

/-- C4 as amended: `payLoan` makes a partial payment.  On an active state
with loan `l > 0` and staged payment value `p`, if `0 < p ≤ l` the payment
`p` is subtracted from the balance and from the loan; otherwise (payment
missing, non-positive, or exceeding the loan) the state is unchanged. -/
theorem payLoan_staged_payment_spec (s : AccountState) (l p : ℚ)
    (hA : s.isActive = true) (hl : s.loan = JsNum.num l)
    (hp : jsNumberOrZero s.payLoanAmount = JsNum.num p) :
    (0 < l → 0 < p → p ≤ l →
      (reducer s .payLoan).balance = jsub s.balance (.num p) ∧
      (reducer s .payLoan).loan = JsNum.num (l - p)) ∧
    (¬ (0 < l ∧ 0 < p ∧ p ≤ l) → reducer s .payLoan = s) := by
  constructor
  · intro hl0 hp0 hple
    simp [reducer, hA, hl, hp, jgt, jle, jsub, hl0, hp0, hple]
  · intro hn
    rcases not_and_or.mp hn with hcase | hrest
    · simp [reducer, hA, hl, hp, jgt, jle, hcase]
    · rcases not_and_or.mp hrest with hcase | hcase <;>
        simp [reducer, hA, hl, hp, jgt, jle, hcase]

theorem payLoan_staged_payment_spec_witness :
    (reducer stagedPayState .payLoan).balance =
      jsub stagedPayState.balance (.num 40) ∧
    (reducer stagedPayState .payLoan).loan = JsNum.num (100 - 40) :=
  (payLoan_staged_payment_spec stagedPayState 100 40 rfl rfl rfl).1
    (by decide) (by decide) (by decide)

/-- The C7 invariant: an inactive state has zero balance and zero loan. -/
def inactiveReset (s : AccountState) : Prop :=
  s.isActive = false → s.balance = JsNum.num 0 ∧ s.loan = JsNum.num 0

theorem inactiveReset_step (s : AccountState) (a : Action)
    (h : inactiveReset s) : inactiveReset (reducer s a) := by
  by_cases hA : s.isActive
  · intro hinact
    cases a with
    | requestLoan =>
        by_cases h0 : jeq s.loan (.num 0) = true <;>
          simp [reducer, hA, h0] at hinact
    | payLoan =>
        by_cases hc : (jgt s.loan (.num 0) &&
            jgt (jsNumberOrZero s.payLoanAmount) (.num 0) &&
            jle (jsNumberOrZero s.payLoanAmount) s.loan) = true <;>
          simp [reducer, hA, hc] at hinact
    | closeAccount =>
        by_cases h0 : jeq s.loan (.num 0) = true
        · simp [reducer, hA, h0]
        · by_cases hge : jge s.balance s.loan = true
          · simp [reducer, hA, h0, hge]
          · simp [reducer, hA, h0, hge] at hinact
    | openAccount => simp [reducer, hA] at hinact
    | setDepositAmount x => simp [reducer, hA] at hinact
    | setWithdrawAmount x => simp [reducer, hA] at hinact
    | setRequestLoanAmount x => simp [reducer, hA] at hinact
    | setPayLoanAmount x => simp [reducer, hA] at hinact
    | deposit => simp [reducer, hA] at hinact
    | withdraw => simp [reducer, hA] at hinact
  · have hF : s.isActive = false := by simpa using hA
    rcases Decidable.em (a = Action.openAccount) with rfl | hne
    · simp [inactiveReset, reducer, hF, Action.typeIsOpenAccount]
    · intro hinact
      rw [reducer_guard s a hF (typeIsOpenAccount_eq_false a hne)] at hinact ⊢
      exact h hinact

theorem foldl_inactiveReset (acts : List Action) :
    ∀ s, inactiveReset s → inactiveReset (acts.foldl reducer s) := by
  induction acts with
  | nil => intro s h; exact h
  | cons a tl ih => intro s h; exact ih _ (inactiveReset_step s a h)

/-- C7: in every state reachable from `initialState`, being inactive
implies that both the balance and the loan are zero. -/
theorem reachable_inactive_reset (acts : List Action)
    (h : (runActions acts).isActive = false) :
    (runActions acts).balance = JsNum.num 0 ∧
    (runActions acts).loan = JsNum.num 0 :=
  foldl_inactiveReset acts initialState (fun _ => ⟨rfl, rfl⟩) h

theorem reachable_inactive_reset_witness :
    (runActions [Action.openAccount, Action.closeAccount]).balance =
      JsNum.num 0 ∧
    (runActions [Action.openAccount, Action.closeAccount]).loan =
      JsNum.num 0 :=
  reachable_inactive_reset [Action.openAccount, Action.closeAccount] (by decide)

/-- C6, counterexample: opening the account, staging the request-loan
text `-50` and dispatching `requestLoan` reaches a state whose loan is
the negative number `-50`. -/
theorem reachable_loan_negative :
    (runActions [Action.openAccount,
        Action.setRequestLoanAmount (.numStr (-50)),
        Action.requestLoan]).loan = JsNum.num (-50) ∧ ((-50 : ℚ) < 0) := by
  exact ⟨rfl, by decide⟩

/-- An action whose staged request-loan payload is not a negative
numeric string. -/
def stagesNonNegLoan : Action → Bool
  | .setRequestLoanAmount (.numStr q) => decide (0 ≤ q)
  | _ => true

/-- The strengthened C6 invariant: the loan is a non-negative number and
the staged request-loan text does not hold a negative numeric value. -/
def loanNonNeg (s : AccountState) : Prop :=
  (∃ q, s.loan = JsNum.num q ∧ 0 ≤ q) ∧
  ∀ q, s.requestLoanAmount = JsStr.numStr q → 0 ≤ q

theorem loanNonNeg_step (s : AccountState) (a : Action)
    (hgood : stagesNonNegLoan a = true) (h : loanNonNeg s) :
    loanNonNeg (reducer s a) := by
  obtain ⟨⟨l, hl, hl0⟩, hstage⟩ := h
  by_cases hA : s.isActive
  · cases a with
    | openAccount =>
        exact ⟨⟨l, by simp [reducer, Action.typeIsOpenAccount, hl], hl0⟩,
          fun q hq =>
            hstage q (by simpa [reducer, Action.typeIsOpenAccount] using hq)⟩
    | setDepositAmount x =>
        exact ⟨⟨l, by simp [reducer, hA, hl], hl0⟩,
          fun q hq => hstage q (by simpa [reducer, hA] using hq)⟩
    | setWithdrawAmount x =>
        exact ⟨⟨l, by simp [reducer, hA, hl], hl0⟩,
          fun q hq => hstage q (by simpa [reducer, hA] using hq)⟩
    | setPayLoanAmount x =>
        exact ⟨⟨l, by simp [reducer, hA, hl], hl0⟩,
          fun q hq => hstage q (by simpa [reducer, hA] using hq)⟩
    | setRequestLoanAmount x =>
        refine ⟨⟨l, by simp [reducer, hA, hl], hl0⟩, fun q hq => ?_⟩
        have hx : x = JsStr.numStr q := by simpa [reducer, hA] using hq
        subst hx
        simpa [stagesNonNegLoan] using hgood
    | deposit =>
        exact ⟨⟨l, by simp [reducer, hA, hl], hl0⟩,
          fun q hq => hstage q (by simpa [reducer, hA] using hq)⟩
    | withdraw =>
        exact ⟨⟨l, by simp [reducer, hA, hl], hl0⟩,
          fun q hq => hstage q (by simpa [reducer, hA] using hq)⟩
    | requestLoan =>
        by_cases h0 : jeq s.loan (.num 0) = true
        · refine ⟨?_, fun q hq => ?_⟩
          · cases hr : s.requestLoanAmount with
            | empty =>
                exact ⟨0, by simp [reducer, hA, h0, hr, jsNumber, jsOrZero,
                  jsTruthy], le_refl 0⟩
            | numStr q =>
                exact ⟨q, by simp [reducer, hA, h0, hr, jsNumber, jsOrZero_num],
                  hstage q hr⟩
            | nanStr =>
                exact ⟨0, by simp [reducer, hA, h0, hr, jsNumber, jsOrZero,
                  jsTruthy], le_refl 0⟩
          · simp [reducer, hA, h0] at hq
        · have hid : reducer s .requestLoan = s := by simp [reducer, hA, h0]
          rw [hid]
          exact ⟨⟨l, hl, hl0⟩, hstage⟩
    | payLoan =>
        by_cases hc : (jgt s.loan (.num 0) &&
            jgt (jsNumberOrZero s.payLoanAmount) (.num 0) &&
            jle (jsNumberOrZero s.payLoanAmount) s.loan) = true
        · have hcc := hc
          rw [Bool.and_eq_true, Bool.and_eq_true] at hcc
          obtain ⟨⟨hgl, hgp⟩, hlep⟩ := hcc
          cases hpv : jsNumberOrZero s.payLoanAmount with
          | nan => rw [hpv] at hgp; simp [jgt] at hgp
          | num p =>
              rw [hpv] at hgp hlep
              rw [hl] at hlep hgl
              have hl0p : 0 < l := by simpa [jgt] using hgl
              have hp0 : 0 < p := by simpa [jgt] using hgp
              have hpl : p ≤ l := by simpa [jle] using hlep
              refine ⟨⟨l - p, ?_, sub_nonneg.mpr hpl⟩, fun q hq => hstage q ?_⟩
              · simp [reducer, hA, hl, hpv, jsub, jgt, jle, hl0p, hp0, hpl]
              · simpa [reducer, hA, hc] using hq
        · have hid : reducer s .payLoan = s := by simp [reducer, hA, hc]
          rw [hid]
          exact ⟨⟨l, hl, hl0⟩, hstage⟩
    | closeAccount =>
        by_cases h0 : jeq s.loan (.num 0) = true
        · exact ⟨⟨0, by simp [reducer, hA, h0], le_refl 0⟩,
            fun q hq => hstage q (by simpa [reducer, hA, h0] using hq)⟩
        · by_cases hge : jge s.balance s.loan = true
          · exact ⟨⟨0, by simp [reducer, hA, h0, hge], le_refl 0⟩,
              fun q hq => hstage q (by simpa [reducer, hA, h0, hge] using hq)⟩
          · have hid : reducer s .closeAccount = s := by
              simp [reducer, hA, h0, hge]
            rw [hid]
            exact ⟨⟨l, hl, hl0⟩, hstage⟩
  · have hF : s.isActive = false := by simpa using hA
    rcases Decidable.em (a = Action.openAccount) with rfl | hne
    · refine ⟨⟨l, ?_, hl0⟩, fun q hq => hstage q ?_⟩
      · simp [reducer, hF, Action.typeIsOpenAccount, hl]
      · simpa [reducer, hF, Action.typeIsOpenAccount] using hq
    · rw [reducer_guard s a hF (typeIsOpenAccount_eq_false a hne)]
      exact ⟨⟨l, hl, hl0⟩, hstage⟩

theorem foldl_loanNonNeg (acts : List Action) :
    ∀ s, loanNonNeg s → (∀ a ∈ acts, stagesNonNegLoan a = true) →
      loanNonNeg (acts.foldl reducer s) := by
  induction acts with
  | nil => intro s h _; exact h
  | cons a tl ih =>
      intro s h hgood
      exact ih _ (loanNonNeg_step s a (hgood a (List.mem_cons_self a tl)) h)
        (fun b hb => hgood b (List.mem_cons_of_mem a hb))

/-- C6 as amended: in every state reachable from `initialState` by a
sequence of actions none of which stages a negative numeric request-loan
amount, the loan is a non-negative number. -/
theorem reachable_loan_nonneg (acts : List Action)
    (hgood : ∀ a ∈ acts, stagesNonNegLoan a = true) :
    ∃ q, (runActions acts).loan = JsNum.num q ∧ 0 ≤ q :=
  (foldl_loanNonNeg acts initialState
    ⟨⟨0, rfl, le_refl 0⟩, fun q hq => by simp [initialState] at hq⟩ hgood).1

theorem reachable_loan_nonneg_witness :
    ∃ q, (runActions [Action.openAccount,
        Action.setRequestLoanAmount (.numStr 5000),
        Action.requestLoan]).loan = JsNum.num q ∧ 0 ≤ q :=
  reachable_loan_nonneg
    [Action.openAccount, Action.setRequestLoanAmount (.numStr 5000),
      Action.requestLoan] (by decide)

end BankApp
